import Mathlib

/-!
Shallow embedding of the interactive logic of `src/front/app/page.tsx`
(a single React component driving a genres / user-profile / wallet admin
console) together with proofs of the specified view-state synchronization
properties.

Modelling conventions:
* Component state (`useState` hooks) becomes the record `AppState`;
  every `setX` call becomes a functional update of that record.
* The backend is external: each `await fetch ...` (plus the following
  `await res.json()` where present) is modelled by an `Except Unit α`
  argument — `.ok` is a completed request (with parsed payload where the
  code uses it), `.error` is a thrown / network-level failure.
* `showMessage` schedules `setTimeout(() => setMessage(""), 3000)` and
  never cancels previously scheduled timeouts; we model the timer set as
  a list of absolute expiry instants and process chronological event
  traces with `runTrace`.  A ghost `history` field records every message
  passed to `showMessage`, so transient notifications stay observable.
* JavaScript `parseInt` returning `NaN` is modelled as `Option Int`
  (`none` = NaN); `jsParseInt` implements the decimal behaviour
  (skip leading spaces, optional sign, longest digit run).
-/

/-- Genre record, from the `Genre` type in page.tsx. -/
structure Genre where
  id : String
  name : String
  listeners : Int
  deriving Repr, DecidableEq

/-- User profile record, from the `UserProfile` type in page.tsx. -/
structure UserProfile where
  id : String
  username : String
  email : String
  subscription_level : Int
  deriving Repr, DecidableEq

/-- Wallet record, from the `Wallet` type in page.tsx. -/
structure Wallet where
  coin_balance : Int
  credit_balance : Int
  deriving Repr, DecidableEq

/-- Digit run at the head of a character list. -/
def leadingDigits (cs : List Char) : List Char :=
  cs.takeWhile (fun c => c.isDigit)

/-- Decimal value of a digit list. -/
def digitsToNat (cs : List Char) : Nat :=
  cs.foldl (fun a c => a * 10 + (c.toNat - 48)) 0

/-- JavaScript `parseInt(s)` on decimal input: skip leading spaces, read an
optional sign and then the longest run of digits; `none` models `NaN`
(no digits).  The hexadecimal autodetection of `parseInt` is irrelevant to
the inputs this app produces and is not modelled. -/
def jsParseInt (s : String) : Option Int :=
  let cs := s.data.dropWhile (fun c => c = ' ')
  match cs with
  | '-' :: rest =>
      let d := leadingDigits rest
      if d.isEmpty then none else some (-(digitsToNat d : Int))
  | '+' :: rest =>
      let d := leadingDigits rest
      if d.isEmpty then none else some ((digitsToNat d : Int))
  | _ =>
      let d := leadingDigits cs
      if d.isEmpty then none else some ((digitsToNat d : Int))

/-- State of the transient notification channel: the currently displayed
`message` string, the absolute expiry instants of every `setTimeout`
callback still pending (the code never calls `clearTimeout`), and a ghost
`history` of all messages ever passed to `showMessage`. -/
structure NotifSt where
  message : String
  pending : List Nat
  history : List String
  deriving Repr, DecidableEq

/-- Delay of the `setTimeout` in `showMessage` (3000 ms = 3 time units). -/
def notifDelay : Nat := 3

/-- The `showMessage` helper (page.tsx lines 46-49): set the message and
schedule a timeout that will clear it `notifDelay` units from `now`.
No previously scheduled timeout is cancelled. -/
def showMessage (now : Nat) (msg : String) (s : NotifSt) : NotifSt :=
  { message := msg
    pending := s.pending ++ [now + notifDelay]
    history := s.history ++ [msg] }

/-- Fire every pending timeout whose expiry instant is ≤ `t`: each fired
callback runs `setMessage("")`. -/
def fireDue (t : Nat) (s : NotifSt) : NotifSt :=
  if s.pending.any (fun e => e ≤ t) then
    { s with message := "", pending := s.pending.filter (fun e => t < e) }
  else s

/-- Run a chronological trace of `showMessage` calls (instant, text) and
observe the channel at instant `t`: before each call, and at the final
instant, all timeouts already due have fired. -/
def runTrace (s : NotifSt) : List (Nat × String) → Nat → NotifSt
  | [], t => fireDue t s
  | (u, m) :: rest, t => runTrace (showMessage u m (fireDue u s)) rest t

/-- The whole component state: one field per `useState` hook of `Home`,
with the message hook refined to the timed notification channel. -/
structure AppState where
  activeTab : String
  genres : List Genre
  profile : Option UserProfile
  wallet : Option Wallet
  notif : NotifSt
  genreId : String
  genreName : String
  genreListeners : String
  userId : String
  username : String
  email : String
  subLevel : String
  transferAmount : String
  deriving Repr, DecidableEq

/-- Initial state from the `useState` initialisers of `Home`. -/
def initState : AppState :=
  { activeTab := "genres"
    genres := []
    profile := none
    wallet := none
    notif := { message := "", pending := [], history := [] }
    genreId := ""
    genreName := ""
    genreListeners := ""
    userId := "user:1234"
    username := ""
    email := ""
    subLevel := "0"
    transferAmount := "" }

/-- The `setUserId` state setter (the shared Active Identifier input). -/
def setUserId (v : String) (s : AppState) : AppState :=
  { s with userId := v }

/-- Payload of `POST /genres`, built in `createGenre`. -/
structure GenrePayload where
  id : String
  name : String
  listeners : Option Int
  deriving Repr, DecidableEq

/-- Payload of `POST /users` and `PUT /users/{id}`, built in `createUser`
and `updateUser`. -/
structure UserPayload where
  id : String
  username : String
  email : String
  subscription_level : Option Int
  deriving Repr, DecidableEq

/-- The HTTP requests the component can issue, with the state-derived
parts of URL and body. -/
inductive Request where
  | getGenres
  | postGenre (body : GenrePayload)
  | getUser (id : String)
  | postUser (body : UserPayload)
  | putUser (id : String) (body : UserPayload)
  | getWallet (id : String)
  | postTransfer (id : String) (amount : Option Int)
  deriving Repr, DecidableEq

/-- Request issued by `fetchGenres`. -/
def fetchGenresReq : Request := Request.getGenres

/-- Request issued by `createGenre`: body read from the three genre form
fields at call time, `listeners` going through `parseInt`. -/
def createGenreReq (s : AppState) : Request :=
  Request.postGenre ⟨s.genreId, s.genreName, jsParseInt s.genreListeners⟩

/-- Request issued by `fetchProfile`: URL keyed by `userId` read at call
time. -/
def fetchProfileReq (s : AppState) : Request :=
  Request.getUser s.userId

/-- Request issued by `createUser`: body keyed by `userId` read at call
time, `subscription_level` going through `parseInt`. -/
def createUserReq (s : AppState) : Request :=
  Request.postUser ⟨s.userId, s.username, s.email, jsParseInt s.subLevel⟩

/-- Request issued by `updateUser`: URL and body keyed by `userId` read at
call time. -/
def updateUserReq (s : AppState) : Request :=
  Request.putUser s.userId ⟨s.userId, s.username, s.email, jsParseInt s.subLevel⟩

/-- Request issued by `fetchWallet`: URL keyed by `userId` read at call
time. -/
def fetchWalletReq (s : AppState) : Request :=
  Request.getWallet s.userId

/-- Request issued by `transferCredits`: URL keyed by `userId` read at
call time, `amount` going through `parseInt`. -/
def transferCreditsReq (s : AppState) : Request :=
  Request.postTransfer s.userId (jsParseInt s.transferAmount)

/-- The `fetchGenres` handler (page.tsx lines 51-60): on success replace
the genre list with the response payload and notify "Genres loaded!";
on a thrown error notify "Error loading genres". -/
def fetchGenres (now : Nat) (resp : Except Unit (List Genre)) (s : AppState) :
    AppState :=
  match resp with
  | .ok data =>
      { s with genres := data, notif := showMessage now "Genres loaded!" s.notif }
  | .error _ =>
      { s with notif := showMessage now "Error loading genres" s.notif }

/-- The `createGenre` handler (page.tsx lines 62-82): on completion of the
POST without a thrown error, notify "Genre created!", clear the three form
fields and call `fetchGenres` (whose own completion is `reload` at instant
`now2`); on a thrown error notify "Error creating genre" and do nothing
else. -/
def createGenre (now now2 : Nat) (post : Except Unit Unit)
    (reload : Except Unit (List Genre)) (s : AppState) : AppState :=
  match post with
  | .ok _ =>
      fetchGenres now2 reload
        { s with
            notif := showMessage now "Genre created!" s.notif
            genreId := ""
            genreName := ""
            genreListeners := "" }
  | .error _ =>
      { s with notif := showMessage now "Error creating genre" s.notif }

/-- The `fetchProfile` handler (page.tsx lines 84-93): on success replace
the profile snapshot and notify "Profile loaded!"; on a thrown error
notify "Error loading profile". -/
def fetchProfile (now : Nat) (resp : Except Unit UserProfile) (s : AppState) :
    AppState :=
  match resp with
  | .ok data =>
      { s with profile := some data, notif := showMessage now "Profile loaded!" s.notif }
  | .error _ =>
      { s with notif := showMessage now "Error loading profile" s.notif }

/-- The `createUser` handler (page.tsx lines 95-113): on completion of the
POST without a thrown error, notify "User created!" and call
`fetchProfile`; on a thrown error notify "Error creating user".  The form
fields are never cleared. -/
def createUser (now now2 : Nat) (post : Except Unit Unit)
    (reload : Except Unit UserProfile) (s : AppState) : AppState :=
  match post with
  | .ok _ =>
      fetchProfile now2 reload { s with notif := showMessage now "User created!" s.notif }
  | .error _ =>
      { s with notif := showMessage now "Error creating user" s.notif }

/-- The `updateUser` handler (page.tsx lines 115-133): on completion of
the PUT without a thrown error, notify "User updated!" and call
`fetchProfile`; on a thrown error notify "Error updating user".  The form
fields are never cleared. -/
def updateUser (now now2 : Nat) (put : Except Unit Unit)
    (reload : Except Unit UserProfile) (s : AppState) : AppState :=
  match put with
  | .ok _ =>
      fetchProfile now2 reload { s with notif := showMessage now "User updated!" s.notif }
  | .error _ =>
      { s with notif := showMessage now "Error updating user" s.notif }

/-- The `fetchWallet` handler (page.tsx lines 135-144): on success replace
the wallet snapshot and notify "Wallet loaded!"; on a thrown error notify
"Error loading wallet". -/
def fetchWallet (now : Nat) (resp : Except Unit Wallet) (s : AppState) :
    AppState :=
  match resp with
  | .ok data =>
      { s with wallet := some data, notif := showMessage now "Wallet loaded!" s.notif }
  | .error _ =>
      { s with notif := showMessage now "Error loading wallet" s.notif }

/-- The `transferCredits` handler (page.tsx lines 146-160): on completion
of the POST without a thrown error, notify "Transfer complete!", clear the
amount field and call `fetchWallet`; on a thrown error notify
"Error transferring credits" and do nothing else. -/
def transferCredits (now now2 : Nat) (post : Except Unit Unit)
    (reload : Except Unit Wallet) (s : AppState) : AppState :=
  match post with
  | .ok _ =>
      fetchWallet now2 reload
        { s with
            notif := showMessage now "Transfer complete!" s.notif
            transferAmount := "" }
  | .error _ =>
      { s with notif := showMessage now "Error transferring credits" s.notif }

/-- One user-level event: an action handler invocation (tagged with its
backend outcomes and notification instants) or an input-field edit. -/
inductive UiAction where
  | loadGenres (now : Nat) (resp : Except Unit (List Genre))
  | addGenre (now now2 : Nat) (post : Except Unit Unit)
      (reload : Except Unit (List Genre))
  | loadProfile (now : Nat) (resp : Except Unit UserProfile)
  | addUser (now now2 : Nat) (post : Except Unit Unit)
      (reload : Except Unit UserProfile)
  | replaceUser (now now2 : Nat) (put : Except Unit Unit)
      (reload : Except Unit UserProfile)
  | loadWallet (now : Nat) (resp : Except Unit Wallet)
  | doTransfer (now now2 : Nat) (post : Except Unit Unit)
      (reload : Except Unit Wallet)
  | setTab (v : String)
  | editGenreId (v : String)
  | editGenreName (v : String)
  | editGenreListeners (v : String)
  | editUserId (v : String)
  | editUsername (v : String)
  | editEmail (v : String)
  | editSubLevel (v : String)
  | editTransferAmount (v : String)

/-- Apply one event to the component state. -/
def step (a : UiAction) (s : AppState) : AppState :=
  match a with
  | .loadGenres now resp => fetchGenres now resp s
  | .addGenre now now2 post reload => createGenre now now2 post reload s
  | .loadProfile now resp => fetchProfile now resp s
  | .addUser now now2 post reload => createUser now now2 post reload s
  | .replaceUser now now2 put reload => updateUser now now2 put reload s
  | .loadWallet now resp => fetchWallet now resp s
  | .doTransfer now now2 post reload => transferCredits now now2 post reload s
  | .setTab v => { s with activeTab := v }
  | .editGenreId v => { s with genreId := v }
  | .editGenreName v => { s with genreName := v }
  | .editGenreListeners v => { s with genreListeners := v }
  | .editUserId v => setUserId v s
  | .editUsername v => { s with username := v }
  | .editEmail v => { s with email := v }
  | .editSubLevel v => { s with subLevel := v }
  | .editTransferAmount v => { s with transferAmount := v }

/-- Run a list of events from a starting state. -/
def run (s : AppState) : List UiAction → AppState
  | [] => s
  | a :: rest => run (step a s) rest

/-- Payload an action installs in the genre snapshot when its read
succeeds (the reload read for `addGenre`), `none` otherwise. -/
def genrePayloadOf : UiAction → Option (List Genre)
  | .loadGenres _ (.ok d) => some d
  | .addGenre _ _ (.ok _) (.ok d) => some d
  | _ => none

/-- Payload an action installs in the profile snapshot when its read
succeeds, `none` otherwise. -/
def profilePayloadOf : UiAction → Option UserProfile
  | .loadProfile _ (.ok d) => some d
  | .addUser _ _ (.ok _) (.ok d) => some d
  | .replaceUser _ _ (.ok _) (.ok d) => some d
  | _ => none

/-- Payload an action installs in the wallet snapshot when its read
succeeds, `none` otherwise. -/
def walletPayloadOf : UiAction → Option Wallet
  | .loadWallet _ (.ok d) => some d
  | .doTransfer _ _ (.ok _) (.ok d) => some d
  | _ => none

/-- Payload of the most recent action of a trace whose read for the given
domain succeeded. -/
def lastPayload (f : UiAction → Option α) : List UiAction → Option α
  | [] => none
  | a :: rest => (lastPayload f rest).elim (f a) some

/-- JavaScript try/catch over an exception-transparent body: an `.ok`
body result is returned as is; a thrown body error is passed to the
catch clause (which could itself rethrow). -/
def jsTryCatch (body : Except Unit α) (catcher : Unit → Except Unit α) :
    Except Unit α :=
  match body with
  | .ok a => .ok a
  | .error e => catcher e

/-- `fetchGenres` with its exception boundary explicit: the try block
propagates the `fetch`/`json` error, the catch clause converts it to a
notification. -/
def fetchGenresE (now : Nat) (resp : Except Unit (List Genre)) (s : AppState) :
    Except Unit AppState :=
  jsTryCatch
    (do
      let data ← resp
      pure { s with genres := data, notif := showMessage now "Genres loaded!" s.notif })
    (fun _ => pure { s with notif := showMessage now "Error loading genres" s.notif })

/-- `createGenre` with its exception boundary explicit.  The nested
`fetchGenres()` call is not awaited and catches internally, so it cannot
throw into this handler. -/
def createGenreE (now now2 : Nat) (post : Except Unit Unit)
    (reload : Except Unit (List Genre)) (s : AppState) : Except Unit AppState :=
  jsTryCatch
    (do
      let _ ← post
      pure (fetchGenres now2 reload
        { s with
            notif := showMessage now "Genre created!" s.notif
            genreId := ""
            genreName := ""
            genreListeners := "" }))
    (fun _ => pure { s with notif := showMessage now "Error creating genre" s.notif })

/-- `fetchProfile` with its exception boundary explicit. -/
def fetchProfileE (now : Nat) (resp : Except Unit UserProfile) (s : AppState) :
    Except Unit AppState :=
  jsTryCatch
    (do
      let data ← resp
      pure { s with profile := some data, notif := showMessage now "Profile loaded!" s.notif })
    (fun _ => pure { s with notif := showMessage now "Error loading profile" s.notif })

/-- `createUser` with its exception boundary explicit. -/
def createUserE (now now2 : Nat) (post : Except Unit Unit)
    (reload : Except Unit UserProfile) (s : AppState) : Except Unit AppState :=
  jsTryCatch
    (do
      let _ ← post
      pure (fetchProfile now2 reload
        { s with notif := showMessage now "User created!" s.notif }))
    (fun _ => pure { s with notif := showMessage now "Error creating user" s.notif })

/-- `updateUser` with its exception boundary explicit. -/
def updateUserE (now now2 : Nat) (put : Except Unit Unit)
    (reload : Except Unit UserProfile) (s : AppState) : Except Unit AppState :=
  jsTryCatch
    (do
      let _ ← put
      pure (fetchProfile now2 reload
        { s with notif := showMessage now "User updated!" s.notif }))
    (fun _ => pure { s with notif := showMessage now "Error updating user" s.notif })

/-- `fetchWallet` with its exception boundary explicit. -/
def fetchWalletE (now : Nat) (resp : Except Unit Wallet) (s : AppState) :
    Except Unit AppState :=
  jsTryCatch
    (do
      let data ← resp
      pure { s with wallet := some data, notif := showMessage now "Wallet loaded!" s.notif })
    (fun _ => pure { s with notif := showMessage now "Error loading wallet" s.notif })

/-- `transferCredits` with its exception boundary explicit. -/
def transferCreditsE (now now2 : Nat) (post : Except Unit Unit)
    (reload : Except Unit Wallet) (s : AppState) : Except Unit AppState :=
  jsTryCatch
    (do
      let _ ← post
      pure (fetchWallet now2 reload
        { s with
            notif := showMessage now "Transfer complete!" s.notif
            transferAmount := "" }))
    (fun _ => pure { s with notif := showMessage now "Error transferring credits" s.notif })

/-- Per-event effect on the genre snapshot: an event installs exactly its
successful genre read payload, otherwise leaves the snapshot unchanged. -/
theorem step_genres (a : UiAction) (s : AppState) :
    (step a s).genres = (genrePayloadOf a).getD s.genres := by
  cases a with
  | loadGenres now resp => cases resp <;> simp [step, fetchGenres, genrePayloadOf]
  | addGenre now now2 post reload =>
      cases post <;> cases reload <;>
        simp [step, createGenre, fetchGenres, genrePayloadOf]
  | loadProfile now resp => cases resp <;> simp [step, fetchProfile, genrePayloadOf]
  | addUser now now2 post reload =>
      cases post <;> cases reload <;>
        simp [step, createUser, fetchProfile, genrePayloadOf]
  | replaceUser now now2 put reload =>
      cases put <;> cases reload <;>
        simp [step, updateUser, fetchProfile, genrePayloadOf]
  | loadWallet now resp => cases resp <;> simp [step, fetchWallet, genrePayloadOf]
  | doTransfer now now2 post reload =>
      cases post <;> cases reload <;>
        simp [step, transferCredits, fetchWallet, genrePayloadOf]
  | setTab v => simp [step, genrePayloadOf]
  | editGenreId v => simp [step, genrePayloadOf]
  | editGenreName v => simp [step, genrePayloadOf]
  | editGenreListeners v => simp [step, genrePayloadOf]
  | editUserId v => simp [step, setUserId, genrePayloadOf]
  | editUsername v => simp [step, genrePayloadOf]
  | editEmail v => simp [step, genrePayloadOf]
  | editSubLevel v => simp [step, genrePayloadOf]
  | editTransferAmount v => simp [step, genrePayloadOf]

/-- Per-event effect on the profile snapshot. -/
theorem step_profile (a : UiAction) (s : AppState) :
    (step a s).profile = (profilePayloadOf a).elim s.profile some := by
  cases a <;> solve
    | simp [step, setUserId, profilePayloadOf]
    | (rename_i resp; cases resp <;>
        simp [step, fetchGenres, fetchProfile, fetchWallet, profilePayloadOf])
    | (rename_i post reload; cases post <;> cases reload <;>
        simp [step, createGenre, fetchGenres, createUser, updateUser, fetchProfile,
          transferCredits, fetchWallet, profilePayloadOf])

/-- Per-event effect on the wallet snapshot. -/
theorem step_wallet (a : UiAction) (s : AppState) :
    (step a s).wallet = (walletPayloadOf a).elim s.wallet some := by
  cases a <;> solve
    | simp [step, setUserId, walletPayloadOf]
    | (rename_i resp; cases resp <;>
        simp [step, fetchGenres, fetchProfile, fetchWallet, walletPayloadOf])
    | (rename_i post reload; cases post <;> cases reload <;>
        simp [step, createGenre, fetchGenres, createUser, updateUser, fetchProfile,
          transferCredits, fetchWallet, walletPayloadOf])

/-- Over any event trace, the genre snapshot is the payload of the most
recent successful genre read, or the starting snapshot when none. -/
theorem run_genres (acts : List UiAction) (s : AppState) :
    (run s acts).genres = (lastPayload genrePayloadOf acts).getD s.genres := by
  induction acts generalizing s with
  | nil => simp [run, lastPayload]
  | cons a rest ih =>
      simp only [run, lastPayload]
      rw [ih]
      cases h : lastPayload genrePayloadOf rest <;>
        simp [Option.elim, step_genres]

/-- Over any event trace, the profile snapshot is the payload of the most
recent successful profile read, or the starting snapshot when none. -/
theorem run_profile (acts : List UiAction) (s : AppState) :
    (run s acts).profile = (lastPayload profilePayloadOf acts).elim s.profile some := by
  induction acts generalizing s with
  | nil => simp [run, lastPayload]
  | cons a rest ih =>
      simp only [run, lastPayload]
      rw [ih]
      cases h : lastPayload profilePayloadOf rest <;>
        simp [Option.elim, step_profile]

/-- Over any event trace, the wallet snapshot is the payload of the most
recent successful wallet read, or the starting snapshot when none. -/
theorem run_wallet (acts : List UiAction) (s : AppState) :
    (run s acts).wallet = (lastPayload walletPayloadOf acts).elim s.wallet some := by
  induction acts generalizing s with
  | nil => simp [run, lastPayload]
  | cons a rest ih =>
      simp only [run, lastPayload]
      rw [ih]
      cases h : lastPayload walletPayloadOf rest <;>
        simp [Option.elim, step_wallet]

/-- C1 counterexample: the claim says a second notify before expiry
cancels the previous timer and the new message persists for a full fresh
3-unit duration.  With notify("A") at instant 0 and notify("B") at
instant 2 (before A's expiry at 3), the claim predicts message "B" at
instant 4 (since 4 < 2 + 3).  The code never calls clearTimeout, so the
timeout scheduled by the first notify fires at instant 3 and clears the
message: at instant 4 the message is "" and not "B". -/
theorem C1_second_notify_cleared_early :
    2 < 0 + notifDelay
    ∧ 4 < 2 + notifDelay
    ∧ (runTrace ⟨"", [], []⟩ [(0, "A"), (2, "B")] 4).message = ""
    ∧ (runTrace ⟨"", [], []⟩ [(0, "A"), (2, "B")] 4).message ≠ "B" := by
  decide

/-- C1 (amended): starting from an idle channel, after notify(m1) at u1
the message equals m1 until the fixed 3-unit expiry u1 + 3 and then
reverts to empty; a second notify(m2) at u2 before that expiry
immediately replaces the text with m2, but the previous timeout is NOT
cancelled: it still fires at u1 + 3 and clears the message, so m2 is
visible only until u1 + 3, not for a full fresh duration.  (At most one
non-empty message is visible at a time, since the channel holds a single
string.) -/
theorem C1_notification_lifecycle (m1 m2 : String) (u1 u2 t : Nat)
    (h1 : u1 ≤ t) (h2 : u1 < u2) (h3 : u2 < u1 + notifDelay) (h4 : u2 ≤ t) :
    (runTrace ⟨"", [], []⟩ [(u1, m1)] t).message
      = (if t < u1 + notifDelay then m1 else "")
    ∧ (runTrace ⟨"", [], []⟩ [(u1, m1), (u2, m2)] t).message
      = (if t < u1 + notifDelay then m2 else "") := by
  have hne : ¬ (u1 + notifDelay ≤ u2) := by simp [notifDelay] at h3 ⊢; omega
  constructor
  · simp only [runTrace, fireDue, showMessage, List.any_nil, List.any_cons, List.nil_append,
      Bool.or_false, decide_eq_true_eq, if_false, Bool.false_eq_true, ite_false]
    split_ifs <;> simp_all <;> omega
  · simp only [runTrace, fireDue, showMessage, List.any_nil, List.any_cons, List.nil_append,
      List.cons_append, List.append_nil, Bool.or_false, decide_eq_true_eq, Bool.false_eq_true,
      ite_false, hne]
    split_ifs <;> simp_all <;> omega

/-- C1 witness: the amended lifecycle at notify("A") at 0, notify("B")
at 2, observed at 4. -/
theorem C1_notification_lifecycle_witness :
    (runTrace ⟨"", [], []⟩ [(0, "A")] 4).message
      = (if 4 < 0 + notifDelay then "A" else "")
    ∧ (runTrace ⟨"", [], []⟩ [(0, "A"), (2, "B")] 4).message
      = (if 4 < 0 + notifDelay then "B" else "") :=
  C1_notification_lifecycle "A" "B" 0 2 4 (by decide) (by decide) (by decide) (by decide)

/-- C2: createUser issues a create request with payload
(id = activeIdentifier, username, email, subscription_level) where
subscription_level is the parsed integer of the selected level; on
success it notifies "User created!" and triggers the profile reload (the
notification history records "User created!" followed by the reload's
"Profile loaded!"), so when the backend accepts, the profile snapshot
becomes the submitted profile; on failure it notifies
"Error creating user".  Includes the spec scenario: identifier
"user:1234", username "ann", email "a@x.com", level "1". -/
theorem C2_createUser_behavior (now now2 : Nat) (r : Except Unit UserProfile)
    (prof : UserProfile) (s : AppState) :
    createUserReq s
      = Request.postUser ⟨s.userId, s.username, s.email, jsParseInt s.subLevel⟩
    ∧ (createUser now now2 (.ok ()) (.ok prof) s).profile = some prof
    ∧ (createUser now now2 (.ok ()) (.ok prof) s).notif.history
        = s.notif.history ++ ["User created!", "Profile loaded!"]
    ∧ (createUser now now2 (.error ()) r s).notif.message = "Error creating user"
    ∧ (createUser now now2 (.error ()) r s).profile = s.profile
    ∧ createUserReq { initState with username := "ann", email := "a@x.com", subLevel := "1" }
        = Request.postUser ⟨"user:1234", "ann", "a@x.com", some 1⟩
    ∧ (createUser now now2 (.ok ()) (.ok ⟨"user:1234", "ann", "a@x.com", 1⟩)
        { initState with username := "ann", email := "a@x.com", subLevel := "1" }).profile
        = some ⟨"user:1234", "ann", "a@x.com", 1⟩
    ∧ "User created!" ∈ (createUser now now2 (.ok ()) (.ok ⟨"user:1234", "ann", "a@x.com", 1⟩)
        { initState with username := "ann", email := "a@x.com", subLevel := "1" }).notif.history := by
  refine ⟨rfl, ?_, ?_, rfl, rfl, by decide, ?_, ?_⟩ <;>
    simp [createUser, fetchProfile, showMessage, createUserReq, initState]

/-- C3: a failed read leaves the prior snapshot of its domain unchanged,
and consequently over every event trace from the initial state each
displayed snapshot is either empty/absent or exactly the payload of the
most recent successful read for that domain. -/
theorem C3_snapshot_is_last_success (acts : List UiAction) (now : Nat) (s : AppState) :
    (fetchGenres now (.error ()) s).genres = s.genres
    ∧ (fetchProfile now (.error ()) s).profile = s.profile
    ∧ (fetchWallet now (.error ()) s).wallet = s.wallet
    ∧ (run initState acts).genres = (lastPayload genrePayloadOf acts).getD []
    ∧ (run initState acts).profile = lastPayload profilePayloadOf acts
    ∧ (run initState acts).wallet = lastPayload walletPayloadOf acts := by
  refine ⟨rfl, rfl, rfl, ?_, ?_, ?_⟩
  · rw [run_genres]; rfl
  · rw [run_profile]
    cases lastPayload profilePayloadOf acts <;> rfl
  · rw [run_wallet]
    cases lastPayload walletPayloadOf acts <;> rfl

/-- C4: a successful loadAll replaces the held genre list wholesale with
exactly the backend's ordered response (no sorting, nothing retained
from the prior snapshot) and notifies "Genres loaded!". -/
theorem C4_loadAll_wholesale_replace (now : Nat) (data : List Genre) (s : AppState) :
    (fetchGenres now (.ok data) s).genres = data
    ∧ (fetchGenres now (.ok data) s).notif.message = "Genres loaded!"
    ∧ (fetchGenres now (.ok data) s).notif.history
        = s.notif.history ++ ["Genres loaded!"] := by
  refine ⟨rfl, rfl, ?_⟩
  simp [fetchGenres, showMessage]

/-- C5: on completion of the genre POST without a thrown error,
createGenre clears the three input fields, notifies "Genre created!" and
unconditionally triggers the genre reload (whose own outcome determines
the final list and the follow-up notification); on a thrown failure it
notifies "Error creating genre", leaves the fields un-cleared, and the
genre list unchanged (no refresh). -/
theorem C5_createGenre_outcomes (now now2 : Nat) (reload : Except Unit (List Genre))
    (s : AppState) :
    ((createGenre now now2 (.ok ()) reload s).genreId = ""
      ∧ (createGenre now now2 (.ok ()) reload s).genreName = ""
      ∧ (createGenre now now2 (.ok ()) reload s).genreListeners = ""
      ∧ (createGenre now now2 (.ok ()) reload s).notif.history
          = s.notif.history ++ "Genre created!" ::
              (match reload with
                | .ok _ => ["Genres loaded!"]
                | .error _ => ["Error loading genres"])
      ∧ (createGenre now now2 (.ok ()) reload s).genres
          = (match reload with | .ok d => d | .error _ => s.genres))
    ∧ ((createGenre now now2 (.error ()) reload s).notif.message = "Error creating genre"
      ∧ (createGenre now now2 (.error ()) reload s).genreId = s.genreId
      ∧ (createGenre now now2 (.error ()) reload s).genreName = s.genreName
      ∧ (createGenre now now2 (.error ()) reload s).genreListeners = s.genreListeners
      ∧ (createGenre now now2 (.error ()) reload s).genres = s.genres) := by
  cases reload <;>
    simp [createGenre, fetchGenres, showMessage]

/-- C6: transferCredits issues a transfer request keyed by the Active
Identifier with the parsed amount; on completion without a thrown error
it clears the amount field, notifies "Transfer complete!" and triggers
the wallet reload (installing the reloaded balances on its success); on
a thrown error it notifies "Error transferring credits" and leaves both
the amount field and the displayed balances unchanged. -/
theorem C6_transfer_outcomes (now now2 : Nat) (reload : Except Unit Wallet)
    (s : AppState) :
    transferCreditsReq s
      = Request.postTransfer s.userId (jsParseInt s.transferAmount)
    ∧ ((transferCredits now now2 (.ok ()) reload s).transferAmount = ""
      ∧ (transferCredits now now2 (.ok ()) reload s).notif.history
          = s.notif.history ++ "Transfer complete!" ::
              (match reload with
                | .ok _ => ["Wallet loaded!"]
                | .error _ => ["Error loading wallet"])
      ∧ (transferCredits now now2 (.ok ()) reload s).wallet
          = (match reload with | .ok w => some w | .error _ => s.wallet))
    ∧ ((transferCredits now now2 (.error ()) reload s).notif.message
          = "Error transferring credits"
      ∧ (transferCredits now now2 (.error ()) reload s).transferAmount = s.transferAmount
      ∧ (transferCredits now now2 (.error ()) reload s).wallet = s.wallet) := by
  cases reload <;>
    simp [transferCredits, fetchWallet, showMessage, transferCreditsReq]

/-- C7: after setting the Active Identifier to a new value, the wallet
and profile reads are keyed by that new value read at call time, never
by an identifier captured earlier (the result is independent of the
previous value v and of whatever s.userId held). -/
theorem C7_request_keyed_by_current_identifier (s : AppState) (v v2 : String) :
    fetchWalletReq (setUserId v2 (setUserId v s)) = Request.getWallet v2
    ∧ fetchProfileReq (setUserId v2 (setUserId v s)) = Request.getUser v2
    ∧ fetchWalletReq (setUserId v2 s) = Request.getWallet v2
    ∧ fetchProfileReq (setUserId v2 s) = Request.getUser v2 :=
  ⟨rfl, rfl, rfl, rfl⟩

/-- C8: every action handler, run with its exception boundary explicit,
returns normally for every backend outcome — the thrown error is caught
at the handler's catch clause and converted to a notification, so no
exception propagates to the caller. -/
theorem C8_errors_caught_at_boundary (now now2 : Nat) (gr : Except Unit (List Genre))
    (pr : Except Unit UserProfile) (wr : Except Unit Wallet)
    (post put tpost : Except Unit Unit) (s : AppState) :
    fetchGenresE now gr s = .ok (fetchGenres now gr s)
    ∧ createGenreE now now2 post gr s = .ok (createGenre now now2 post gr s)
    ∧ fetchProfileE now pr s = .ok (fetchProfile now pr s)
    ∧ createUserE now now2 post pr s = .ok (createUser now now2 post pr s)
    ∧ updateUserE now now2 put pr s = .ok (updateUser now now2 put pr s)
    ∧ fetchWalletE now wr s = .ok (fetchWallet now wr s)
    ∧ transferCreditsE now now2 tpost wr s = .ok (transferCredits now now2 tpost wr s) := by
  refine ⟨?_, ?_, ?_, ?_, ?_, ?_, ?_⟩ <;>
    solve
      | cases gr <;> rfl
      | cases pr <;> rfl
      | cases wr <;> rfl
      | cases post <;> rfl
      | cases put <;> rfl
      | cases tpost <;> rfl

/-- C9: with a stable backend (the same response to both reads), calling
loadProfile twice in a row yields the same displayed snapshot after each
call — the second call does not change the snapshot produced by the
first. -/
theorem C9_loadProfile_idempotent (n1 n2 : Nat) (resp : Except Unit UserProfile)
    (s : AppState) :
    (fetchProfile n2 resp (fetchProfile n1 resp s)).profile
      = (fetchProfile n1 resp s).profile := by
  cases resp <;> simp [fetchProfile]

/-- C10: for every outcome of the POST/PUT and of the profile reload,
createUser and updateUser leave the username, email and
subscription-level form fields unchanged — the user form is never
cleared after submission. -/
theorem C10_user_form_preserved (now now2 : Nat) (post put : Except Unit Unit)
    (reload : Except Unit UserProfile) (s : AppState) :
    ((createUser now now2 post reload s).username = s.username
      ∧ (createUser now now2 post reload s).email = s.email
      ∧ (createUser now now2 post reload s).subLevel = s.subLevel)
    ∧ ((updateUser now now2 put reload s).username = s.username
      ∧ (updateUser now now2 put reload s).email = s.email
      ∧ (updateUser now now2 put reload s).subLevel = s.subLevel) := by
  cases post <;> cases put <;> cases reload <;>
    simp [createUser, updateUser, fetchProfile]
